import Mathlib

/-!
Verification of the task persistence and mutation service of the
Tasks-Manager repository (`app/service/service.py`, `app/schemas/schemas.py`,
`app/models/models.py`, `app/db/base_class.py`).

Shallow embedding conventions:
  * The PostgreSQL table `tasks` is modelled as an insertion-ordered list of
    records (`StoreState.tasks`).  A `SELECT` without `ORDER BY` over an
    append-only table is modelled as returning rows in insertion order.
  * `uuid4` primary-key generation (`base_class.py`, `id` column default) is
    modelled as fresh-identifier generation from a counter `nextId`: a
    server-assigned identifier that has never been used before.
  * `func.now()` (the `created_at` / `updated_at` column defaults and the
    `onupdate` hook) is modelled by a logical clock `clock : Nat` carried in
    the state and ticked at every commit, so successive commits observe
    non-decreasing times.
  * SQLAlchemy emits an `UPDATE` statement (and hence fires the
    `onupdate=func.now()` refresh of `updated_at`) only when some attribute
    has a net change; a commit with no net change leaves the row untouched.
  * Column nullability follows `models.py` / `base_class.py`: `title` and
    `description` are `nullable=False` (a flush writing NULL raises an
    integrity error, modelled as `ServiceError.storageError`), while `status`
    has no `nullable=False` and so is a nullable column; record fields are
    therefore `Option`-valued.
  * `HTTPException(status_code=404, detail="Task not found")` is modelled as
    `ServiceError.notFound`; database/infrastructure errors (integrity
    violations, PostgreSQL rejecting a negative LIMIT/OFFSET,
    `scalar_one_or_none` meeting several rows) as `ServiceError.storageError`.
  * Pydantic `TaskUpdate` with `model_dump(exclude_unset=True)` distinguishes
    a field absent from the payload from a field explicitly set (possibly to
    null); an update field is therefore `Option (Option _)`: the outer layer
    is "present in the payload", the inner one is the transmitted value.
-/

/-- `TaskStatus` enumeration (`schemas.py` / `models.py`). -/
inductive TaskStatus where
  | created
  | in_progress
  | completed
deriving DecidableEq, Repr

/-- A row of the `tasks` table (`TaskModel` in `models.py` plus the columns
inherited from `BaseModel` in `base_class.py`).  `title` is a NOT NULL
VARCHAR(200) column — the field holds the stored string, and the 200-char
bound is enforced on the write path by `varchar200` below, as the database
enforces it per INSERT — `description` is NOT NULL unbounded Text, and
`status` and `deleted_at` are nullable. -/
structure TaskRecord where
  id : Nat
  title : Option String
  description : Option String
  status : Option TaskStatus
  created_at : Nat
  updated_at : Nat
  deleted_at : Option Nat
deriving DecidableEq, Repr

/-- Pydantic `TaskCreate` (`schemas.py`): two required string fields, with no
non-emptiness constraint declared. -/
structure TaskCreate where
  title : String
  description : String
deriving DecidableEq, Repr

/-- Pydantic `TaskUpdate` (`schemas.py`): three independently optional
fields.  The outer `Option` records whether the field was present in the
payload (pydantic `fields_set`, observed via `model_dump(exclude_unset=True)`);
the inner `Option` is the transmitted value, `none` for an explicit null. -/
structure TaskUpdate where
  title : Option (Option String) := none
  description : Option (Option String) := none
  status : Option (Option TaskStatus) := none
deriving DecidableEq, Repr

/-- Error outcomes of a service call: the 404 `HTTPException` raised by the
service itself, versus an error raised by the storage layer. -/
inductive ServiceError where
  | notFound
  | storageError
deriving DecidableEq, Repr

/-- State of the store: the rows of the `tasks` table in insertion order,
the fresh-identifier source modelling `uuid4`, and the database clock
modelling `func.now()`. -/
structure StoreState where
  tasks : List TaskRecord
  nextId : Nat
  clock : Nat
deriving DecidableEq, Repr

/-- The empty store at process start. -/
def initState : StoreState := { tasks := [], nextId := 0, clock := 0 }

/-- PostgreSQL's coercion of a value written into the VARCHAR(200) column
declared by `title = Column(String(200), ...)` (`models.py` line 19): a
value of at most 200 characters is stored as is; a longer value whose
excess characters are all spaces is silently truncated to 200 characters;
any other longer value is rejected ("value too long for type character
varying(200)"), modelled as `none`. -/
def varchar200 (v : String) : Option String :=
  if v.length ≤ 200 then some v
  else if (v.data.drop 200).all (fun c => c == ' ') then
    some (String.mk (v.data.take 200))
  else none

/-- `TaskService.create_task` (`service.py` lines 13-18): builds a
`TaskModel` from the payload's `title` and `description`, lets the column
defaults assign `id`, `status=created` and both timestamps, commits, and
returns the row.  No validation is performed by the service itself; the
INSERT still fails (or space-truncates) when the title exceeds the
VARCHAR(200) column bound. -/
def create_task (s : StoreState) (t : TaskCreate) :
    Except ServiceError (TaskRecord × StoreState) :=
  match varchar200 t.title with
  | none => Except.error ServiceError.storageError
  | some stored =>
    let r : TaskRecord :=
      { id := s.nextId
        title := some stored
        description := some t.description
        status := some TaskStatus.created
        created_at := s.clock
        updated_at := s.clock
        deleted_at := none }
    Except.ok
      (r, { tasks := s.tasks ++ [r], nextId := s.nextId + 1, clock := s.clock + 1 })

/-- `TaskService.get_tasks` (`service.py` lines 20-24):
`select(TaskModel).offset(skip).limit(limit)` executed by PostgreSQL, which
rejects a negative OFFSET or LIMIT with an error. -/
def get_tasks (s : StoreState) (skip limit : Int) :
    Except ServiceError (List TaskRecord) :=
  if skip < 0 ∨ limit < 0 then Except.error ServiceError.storageError
  else Except.ok ((s.tasks.drop skip.toNat).take limit.toNat)

/-- `TaskService.get_task` (`service.py` lines 26-32): select by id,
`scalar_one_or_none` (errors when several rows match), then
`HTTPException 404` when the result is `None`. -/
def get_task (s : StoreState) (task_id : Nat) : Except ServiceError TaskRecord :=
  match s.tasks.filter (fun r => r.id == task_id) with
  | [] => Except.error ServiceError.notFound
  | [t] => Except.ok t
  | _ => Except.error ServiceError.storageError

/-- The `setattr` merge loop of `TaskService.update_task` (`service.py`
lines 41-43): for each key present in
`task_update.model_dump(exclude_unset=True)`, assign the transmitted value
(possibly null) to the corresponding attribute; absent keys are skipped. -/
def applyUpdate (r : TaskRecord) (u : TaskUpdate) : TaskRecord :=
  let r1 := match u.title with
    | some v => { r with title := v }
    | none => r
  let r2 := match u.description with
    | some v => { r1 with description := v }
    | none => r1
  match u.status with
  | some v => { r2 with status := v }
  | none => r2

/-- `TaskService.update_task` (`service.py` lines 34-47): select by id,
404 when absent, merge the set fields, commit.  The commit emits an UPDATE
only when some attribute has a net change; the UPDATE refreshes `updated_at`
(`onupdate=func.now()`) and is rejected when it would write NULL into the
NOT NULL `title` or `description` column. -/
def update_task (s : StoreState) (task_id : Nat) (u : TaskUpdate) :
    Except ServiceError (TaskRecord × StoreState) :=
  match s.tasks.filter (fun r => r.id == task_id) with
  | [] => Except.error ServiceError.notFound
  | [t] =>
    let merged := applyUpdate t u
    if merged = t then
      Except.ok (t, { s with clock := s.clock + 1 })
    else if merged.title = none ∨ merged.description = none then
      Except.error ServiceError.storageError
    else
      let final := { merged with updated_at := s.clock }
      Except.ok (final,
        { s with
          tasks := s.tasks.map (fun r => if r.id == task_id then final else r)
          clock := s.clock + 1 })
  | _ => Except.error ServiceError.storageError

/-- `TaskService.delete_task` (`service.py` lines 49-57): select by id,
404 when absent, then `db.delete` + commit, physically removing the row. -/
def delete_task (s : StoreState) (task_id : Nat) : Except ServiceError StoreState :=
  match s.tasks.filter (fun r => r.id == task_id) with
  | [] => Except.error ServiceError.notFound
  | [_] =>
    Except.ok
      { s with
        tasks := s.tasks.filter (fun r => ¬ r.id == task_id)
        clock := s.clock + 1 }
  | _ => Except.error ServiceError.storageError

/-- A mutating service call, for reachability statements. -/
inductive Op where
  | create (t : TaskCreate)
  | update (task_id : Nat) (u : TaskUpdate)
  | delete (task_id : Nat)
deriving DecidableEq, Repr

/-- One service call against the store.  A failed call raises; the request
scope rolls back and closes the session (`db/session.py`), leaving the store
unchanged. -/
def step (s : StoreState) : Op → StoreState
  | Op.create t =>
    match create_task s t with
    | Except.ok (_, s2) => s2
    | Except.error _ => s
  | Op.update task_id u =>
    match update_task s task_id u with
    | Except.ok (_, s2) => s2
    | Except.error _ => s
  | Op.delete task_id =>
    match delete_task s task_id with
    | Except.ok s2 => s2
    | Except.error _ => s

/-- The store state reached by a sequence of service calls from process
start. -/
def run (ops : List Op) : StoreState := ops.foldl step initState

/-! ### Helper lemmas about id-based row selection -/

/-- A query keyed on an id that no stored row carries selects nothing. -/
theorem filter_id_eq_nil {l : List TaskRecord} {i : Nat}
    (h : ∀ r ∈ l, r.id ≠ i) : l.filter (fun r => r.id == i) = [] :=
  List.filter_eq_nil_iff.mpr (fun r hr hb => h r hr (beq_iff_eq.mp hb))

/-- When stored ids are pairwise distinct, a query keyed on the id of a
stored row selects exactly that row. -/
theorem filter_id_eq_single {l : List TaskRecord} {r : TaskRecord} {i : Nat}
    (hp : l.Pairwise (fun a b => a.id ≠ b.id)) (hm : r ∈ l) (hi : r.id = i) :
    l.filter (fun x => x.id == i) = [r] := by
  induction l with
  | nil => cases hm
  | cons a t ih =>
    rcases List.pairwise_cons.mp hp with ⟨ha, ht⟩
    rcases List.mem_cons.mp hm with h | h
    · subst h
      have hrest : t.filter (fun x => x.id == i) = [] :=
        filter_id_eq_nil (fun b hb => fun hbi => ha b hb (hi.trans hbi.symm))
      rw [List.filter_cons, if_pos (beq_iff_eq.mpr hi), hrest]
    · have hne : (a.id == i) = false :=
        beq_eq_false_iff_ne.mpr (fun hai => ha r h (hai.trans hi.symm))
      rw [List.filter_cons, hne]
      exact ih ht h

/-- Field-by-field reading of the merge loop: a field present in the payload
is overwritten with the transmitted value, an absent field keeps the stored
value, and no other attribute is touched. -/
theorem applyUpdate_fields (r : TaskRecord) (u : TaskUpdate) :
    (applyUpdate r u).title = u.title.getD r.title ∧
    (applyUpdate r u).description = u.description.getD r.description ∧
    (applyUpdate r u).status = u.status.getD r.status ∧
    (applyUpdate r u).id = r.id ∧
    (applyUpdate r u).created_at = r.created_at ∧
    (applyUpdate r u).updated_at = r.updated_at ∧
    (applyUpdate r u).deleted_at = r.deleted_at := by
  rcases u with ⟨ut, ud, us⟩
  cases ut <;> cases ud <;> cases us <;>
    simp [applyUpdate, Option.getD]

/-- A value within the column bound is stored unchanged. -/
theorem varchar200_within (v : String) (h : v.length ≤ 200) :
    varchar200 v = some v := by
  rw [varchar200, if_pos h]

/-- A value beyond the column bound whose excess is not all spaces is
rejected. -/
theorem varchar200_reject (v : String) (h1 : ¬ v.length ≤ 200)
    (h2 : ((v.data.drop 200).all (fun c => c == ' ')) = false) :
    varchar200 v = none := by
  rw [varchar200, if_neg h1, if_neg (by simp [h2])]

/-- Whatever the column stores for a non-empty value is non-empty: short
values are kept, and a truncated value retains 200 of more than 200
characters. -/
theorem varchar200_ne_empty (v stored : String) (hv : v ≠ "")
    (h : varchar200 v = some stored) : stored ≠ "" := by
  rw [varchar200] at h
  split at h
  · cases h
    exact hv
  · next hlen =>
    split at h
    · cases h
      intro he
      have hd : v.data.take 200 = ([] : List Char) := congrArg String.data he
      have h0 : min 200 v.data.length = 0 := by
        rw [← List.length_take, hd]
        rfl
      rcases Nat.min_eq_zero_iff.mp h0 with h200 | hdl
      · exact absurd h200 (by decide)
      · exact hlen (by rw [show v.length = v.data.length from rfl, hdl]; decide)
    · cases h

/-- `create_task` on a title within the column bound: the insert succeeds
and stores the payload verbatim. -/
theorem create_task_within (s : StoreState) (t : TaskCreate)
    (h : t.title.length ≤ 200) :
    create_task s t = Except.ok
      ({ id := s.nextId, title := some t.title,
         description := some t.description,
         status := some TaskStatus.created, created_at := s.clock,
         updated_at := s.clock, deleted_at := none },
       { tasks := s.tasks ++
           [{ id := s.nextId, title := some t.title,
              description := some t.description,
              status := some TaskStatus.created, created_at := s.clock,
              updated_at := s.clock, deleted_at := none }],
         nextId := s.nextId + 1, clock := s.clock + 1 }) := by
  rw [create_task, varchar200_within t.title h]

/-- Any successful `create_task` appended one fresh row whose title is what
the VARCHAR(200) column stored for the payload's title. -/
theorem create_task_ok_state (s : StoreState) (t : TaskCreate)
    (r2 : TaskRecord) (s2 : StoreState)
    (h : create_task s t = Except.ok (r2, s2)) :
    ∃ stored,
      varchar200 t.title = some stored ∧
      r2 = { id := s.nextId, title := some stored,
             description := some t.description,
             status := some TaskStatus.created, created_at := s.clock,
             updated_at := s.clock, deleted_at := none } ∧
      s2 = { tasks := s.tasks ++ [r2], nextId := s.nextId + 1,
             clock := s.clock + 1 } := by
  cases hv : varchar200 t.title with
  | none =>
    rw [create_task, hv] at h
    cases h
  | some stored =>
    rw [create_task, hv] at h
    cases h
    exact ⟨stored, rfl, rfl, rfl⟩

/-- A concrete stored row, used to instantiate theorems with hypotheses. -/
def sampleA : TaskRecord :=
  { id := 0
    title := some "Sample Task"
    description := some "Sample Description"
    status := some TaskStatus.created
    created_at := 0
    updated_at := 0
    deleted_at := none }

/-- A concrete one-row store, used to instantiate theorems with hypotheses. -/
def sampleState : StoreState := { tasks := [sampleA], nextId := 1, clock := 1 }

/-- C1: `getTask(id)` on an id with no matching record fails with the 404
`NotFound` outcome (distinct from `storageError`) — it never returns a
default or empty record — and on the id of a stored record (ids being
pairwise distinct) it returns exactly that record. -/
theorem getTask_notFound_or_record (s : StoreState) (i : Nat) :
    ((∀ r ∈ s.tasks, r.id ≠ i) →
      get_task s i = Except.error ServiceError.notFound) ∧
    (s.tasks.Pairwise (fun a b => a.id ≠ b.id) →
      ∀ r ∈ s.tasks, r.id = i → get_task s i = Except.ok r) := by
  constructor
  · intro h
    rw [get_task, filter_id_eq_nil h]
  · intro hp r hm hi
    rw [get_task, filter_id_eq_single hp hm hi]

/-- C1 instantiated on a concrete store: id 5 is absent and yields
`NotFound`; id 0 is present and yields its record. -/
theorem getTask_notFound_or_record_witness :
    get_task sampleState 5 = Except.error ServiceError.notFound ∧
    get_task sampleState 0 = Except.ok sampleA :=
  ⟨(getTask_notFound_or_record sampleState 5).1 (by decide),
   (getTask_notFound_or_record sampleState 0).2 (by decide) sampleA
     (by simp [sampleState]) rfl⟩

/-- Reduction of `update_task` once the id lookup is known to select exactly
one row. -/
theorem update_task_found (s : StoreState) (i : Nat) (u : TaskUpdate)
    (r : TaskRecord) (hf : s.tasks.filter (fun x => x.id == i) = [r]) :
    update_task s i u =
      (if applyUpdate r u = r then
        Except.ok (r, { s with clock := s.clock + 1 })
      else if (applyUpdate r u).title = none ∨
          (applyUpdate r u).description = none then
        Except.error ServiceError.storageError
      else
        Except.ok ({ applyUpdate r u with updated_at := s.clock },
          { s with
            tasks := s.tasks.map (fun x =>
              if x.id == i then { applyUpdate r u with updated_at := s.clock }
              else x)
            clock := s.clock + 1 })) := by
  rw [update_task, hf]

/-- C3: `updateTask` on an id absent from the store fails with the 404
`NotFound` outcome, and the store state is left completely unchanged (the
failed call performs no write). -/
theorem updateTask_absent_notFound (s : StoreState) (i : Nat) (u : TaskUpdate)
    (h : ∀ r ∈ s.tasks, r.id ≠ i) :
    update_task s i u = Except.error ServiceError.notFound ∧
    step s (Op.update i u) = s := by
  have he : update_task s i u = Except.error ServiceError.notFound := by
    rw [update_task, filter_id_eq_nil h]
  exact ⟨he, by rw [step, he]⟩

/-- C3 instantiated: updating absent id 5 in a concrete one-row store fails
with `NotFound` and leaves the state unchanged. -/
theorem updateTask_absent_notFound_witness :
    update_task sampleState 5 { title := some (some "x") }
        = Except.error ServiceError.notFound ∧
    step sampleState (Op.update 5 { title := some (some "x") }) = sampleState :=
  updateTask_absent_notFound sampleState 5 { title := some (some "x") }
    (by decide)

/-- C4: `deleteTask` on an absent id fails with `NotFound`; on the id of a
stored record (ids pairwise distinct) it physically removes the record, so a
subsequent `getTask` on that id fails with `NotFound` and a second
`deleteTask` also fails with `NotFound` instead of succeeding silently. -/
theorem deleteTask_removes (s : StoreState) (i : Nat) :
    ((∀ r ∈ s.tasks, r.id ≠ i) →
      delete_task s i = Except.error ServiceError.notFound) ∧
    (s.tasks.Pairwise (fun a b => a.id ≠ b.id) →
      ∀ r ∈ s.tasks, r.id = i →
      ∃ s2, delete_task s i = Except.ok s2 ∧
        get_task s2 i = Except.error ServiceError.notFound ∧
        delete_task s2 i = Except.error ServiceError.notFound) := by
  constructor
  · intro h
    rw [delete_task, filter_id_eq_nil h]
  · intro hp r hm hi
    refine ⟨{ s with
        tasks := s.tasks.filter (fun x => ¬ x.id == i)
        clock := s.clock + 1 }, ?_, ?_, ?_⟩
    · rw [delete_task, filter_id_eq_single hp hm hi]
    · have hnone : ∀ x ∈ s.tasks.filter (fun x => ¬ x.id == i), x.id ≠ i := by
        intro x hx
        have := (List.mem_filter.mp hx).2
        simpa using this
      rw [get_task]
      have : (s.tasks.filter (fun x => ¬ x.id == i)).filter
          (fun x => x.id == i) = [] := filter_id_eq_nil hnone
      rw [this]
    · have hnone : ∀ x ∈ s.tasks.filter (fun x => ¬ x.id == i), x.id ≠ i := by
        intro x hx
        have := (List.mem_filter.mp hx).2
        simpa using this
      rw [delete_task]
      have : (s.tasks.filter (fun x => ¬ x.id == i)).filter
          (fun x => x.id == i) = [] := filter_id_eq_nil hnone
      rw [this]

/-- C4 instantiated: deleting absent id 5 fails with `NotFound`; deleting
present id 0 removes the row, after which get and delete both report
`NotFound`. -/
theorem deleteTask_removes_witness :
    delete_task sampleState 5 = Except.error ServiceError.notFound ∧
    ∃ s2, delete_task sampleState 0 = Except.ok s2 ∧
      get_task s2 0 = Except.error ServiceError.notFound ∧
      delete_task s2 0 = Except.error ServiceError.notFound :=
  ⟨(deleteTask_removes sampleState 5).1 (by decide),
   (deleteTask_removes sampleState 0).2 (by decide) sampleA
     (by simp [sampleState]) rfl⟩

/-- C5 (divergence evidence): `TaskService.create_task` performs no
validation — called with an empty (hence empty-after-trimming) title it
does not fail, inserts a row, and the stored row carries the empty title.
The repository's own test `test_create_task_validation_error` expects this
input to be rejected with a validation error instead. -/
theorem createTask_empty_title_inserted :
    create_task initState { title := "", description := "Test Description" } =
      Except.ok
        ({ id := 0, title := some "", description := some "Test Description",
           status := some TaskStatus.created, created_at := 0, updated_at := 0,
           deleted_at := none },
         { tasks := [{ id := 0, title := some "",
                       description := some "Test Description",
                       status := some TaskStatus.created, created_at := 0,
                       updated_at := 0, deleted_at := none }],
           nextId := 1, clock := 1 }) :=
  rfl

/-- C6: the store lists records in insertion order with offset/limit
pagination: after creating three tasks in order (titles within the
VARCHAR(200) column bound, so the three inserts commit),
`listTasks(skip=0,limit=2)` returns exactly the first two records and
`listTasks(skip=2,limit=2)` returns exactly the third. -/
theorem listTasks_insertion_order (t1 t2 t3 : TaskCreate)
    (h1 : t1.title.length ≤ 200) (h2 : t2.title.length ≤ 200)
    (h3 : t3.title.length ≤ 200) :
    (run [Op.create t1, Op.create t2, Op.create t3]).tasks =
      [{ id := 0, title := some t1.title, description := some t1.description,
         status := some TaskStatus.created, created_at := 0, updated_at := 0,
         deleted_at := none },
       { id := 1, title := some t2.title, description := some t2.description,
         status := some TaskStatus.created, created_at := 1, updated_at := 1,
         deleted_at := none },
       { id := 2, title := some t3.title, description := some t3.description,
         status := some TaskStatus.created, created_at := 2, updated_at := 2,
         deleted_at := none }] ∧
    get_tasks (run [Op.create t1, Op.create t2, Op.create t3]) 0 2 =
      Except.ok
        [{ id := 0, title := some t1.title, description := some t1.description,
           status := some TaskStatus.created, created_at := 0, updated_at := 0,
           deleted_at := none },
         { id := 1, title := some t2.title, description := some t2.description,
           status := some TaskStatus.created, created_at := 1, updated_at := 1,
           deleted_at := none }] ∧
    get_tasks (run [Op.create t1, Op.create t2, Op.create t3]) 2 2 =
      Except.ok
        [{ id := 2, title := some t3.title, description := some t3.description,
           status := some TaskStatus.created, created_at := 2, updated_at := 2,
           deleted_at := none }] := by
  have hrun : run [Op.create t1, Op.create t2, Op.create t3] =
      { tasks := [{ id := 0, title := some t1.title,
                    description := some t1.description,
                    status := some TaskStatus.created, created_at := 0,
                    updated_at := 0, deleted_at := none },
                  { id := 1, title := some t2.title,
                    description := some t2.description,
                    status := some TaskStatus.created, created_at := 1,
                    updated_at := 1, deleted_at := none },
                  { id := 2, title := some t3.title,
                    description := some t3.description,
                    status := some TaskStatus.created, created_at := 2,
                    updated_at := 2, deleted_at := none }],
        nextId := 3, clock := 3 } := by
    simp only [run, List.foldl, step, create_task_within, h1, h2, h3]
    rfl
  refine ⟨?_, ?_, ?_⟩
  · rw [hrun]
  · rw [hrun]
    rfl
  · rw [hrun]
    rfl

/-- C6 instantiated on three concrete creates. -/
theorem listTasks_insertion_order_witness :
    get_tasks (run [Op.create { title := "A", description := "a" },
                    Op.create { title := "B", description := "b" },
                    Op.create { title := "C", description := "c" }]) 0 2 =
      Except.ok
        [{ id := 0, title := some "A", description := some "a",
           status := some TaskStatus.created, created_at := 0, updated_at := 0,
           deleted_at := none },
         { id := 1, title := some "B", description := some "b",
           status := some TaskStatus.created, created_at := 1, updated_at := 1,
           deleted_at := none }] ∧
    get_tasks (run [Op.create { title := "A", description := "a" },
                    Op.create { title := "B", description := "b" },
                    Op.create { title := "C", description := "c" }]) 2 2 =
      Except.ok
        [{ id := 2, title := some "C", description := some "c",
           status := some TaskStatus.created, created_at := 2, updated_at := 2,
           deleted_at := none }] :=
  ⟨(listTasks_insertion_order { title := "A", description := "a" }
      { title := "B", description := "b" } { title := "C", description := "c" }
      (by decide) (by decide) (by decide)).2.1,
   (listTasks_insertion_order { title := "A", description := "a" }
      { title := "B", description := "b" } { title := "C", description := "c" }
      (by decide) (by decide) (by decide)).2.2⟩

/-- C7 (counterexample): a negative `limit` does not yield an empty
sequence — PostgreSQL rejects the negative LIMIT, so the call fails with a
storage-level error. -/
theorem listTasks_negative_limit_cex :
    get_tasks initState 0 (-1) = Except.error ServiceError.storageError ∧
    get_tasks initState 0 (-1) ≠ Except.ok [] :=
  ⟨rfl, fun h => Except.noConfusion ((rfl :
    get_tasks initState 0 (-1) = Except.error ServiceError.storageError)
      ▸ h)⟩

/-- C7 (amended): a zero `limit` yields an empty sequence, a non-negative
`skip` at or beyond the collection size yields an empty sequence, and a
negative `skip` or `limit` is passed through unclamped and rejected by the
database with a storage-level error. -/
theorem listTasks_boundary (s : StoreState) (skip limit : Int) :
    (0 ≤ skip → get_tasks s skip 0 = Except.ok []) ∧
    (0 ≤ skip → 0 ≤ limit → s.tasks.length ≤ skip.toNat →
      get_tasks s skip limit = Except.ok []) ∧
    (skip < 0 ∨ limit < 0 →
      get_tasks s skip limit = Except.error ServiceError.storageError) := by
  refine ⟨?_, ?_, ?_⟩
  · intro hs
    rw [get_tasks, if_neg ?_]
    · rfl
    · intro h
      rcases h with h | h
      · omega
      · exact absurd h (by decide)
  · intro hs hl hlen
    rw [get_tasks, if_neg ?_]
    · rw [List.drop_eq_nil_of_le hlen, List.take_nil]
    · intro h
      rcases h with h | h <;> omega
  · intro h
    rw [get_tasks, if_pos h]

/-- C7 (amended) instantiated on a concrete one-row store. -/
theorem listTasks_boundary_witness :
    get_tasks sampleState 3 0 = Except.ok [] ∧
    get_tasks sampleState 5 4 = Except.ok [] ∧
    get_tasks sampleState (-2) 4 = Except.error ServiceError.storageError :=
  ⟨(listTasks_boundary sampleState 3 0).1 (by decide),
   (listTasks_boundary sampleState 5 4).2.1 (by decide) (by decide) (by decide),
   (listTasks_boundary sampleState (-2) 4).2.2 (Or.inl (by decide))⟩

set_option maxRecDepth 4096 in
/-- C9 (counterexample): `createTask` does not return a Task for every
title — a 201-character title with non-space excess exceeds the
VARCHAR(200) bound of the title column, so the INSERT fails with a
storage-level error ("value too long for type character varying(200)")
instead of returning a fully populated Task. -/
theorem createTask_long_title_cex :
    create_task initState
        { title := String.mk (List.replicate 201 'x'), description := "d" } =
      Except.error ServiceError.storageError := rfl

/-- C9 (amended): for every title within the VARCHAR(200) column bound,
`createTask` returns a fully populated record — `status=created`, both
timestamps assigned together, the supplied title and description, and a
fresh server-assigned id — and `getTask` on that id with no intervening
mutation returns a record equal in all fields to the one `createTask`
returned; a title longer than 200 characters whose excess is not all
spaces makes `createTask` fail with a storage-level error (an all-space
excess would instead be silently truncated by the column). -/
theorem createTask_getTask_roundtrip (s : StoreState) (t : TaskCreate)
    (h : ∀ r ∈ s.tasks, r.id < s.nextId) :
    (t.title.length ≤ 200 →
      ∃ r s2, create_task s t = Except.ok (r, s2) ∧
        r.status = some TaskStatus.created ∧
        r.title = some t.title ∧
        r.description = some t.description ∧
        r.created_at = r.updated_at ∧
        get_task s2 r.id = Except.ok r) ∧
    (¬ t.title.length ≤ 200 →
      ((t.title.data.drop 200).all (fun c => c == ' ')) = false →
      create_task s t = Except.error ServiceError.storageError) := by
  constructor
  · intro hlen
    refine ⟨_, _, create_task_within s t hlen, rfl, rfl, rfl, rfl, ?_⟩
    have h1 : s.tasks.filter (fun x => x.id == s.nextId) = [] :=
      filter_id_eq_nil (fun r hr => Nat.ne_of_lt (h r hr))
    rw [get_task]
    simp only [List.filter_append, h1, List.nil_append, List.filter_cons,
      List.filter_nil, beq_self_eq_true, if_true]
  · intro hlen hsp
    rw [create_task, varchar200_reject t.title hlen hsp]

set_option maxRecDepth 4096 in
/-- C9 (amended) instantiated: a short title round-trips on the empty
store; a 201-character non-space title is rejected by the insert. -/
theorem createTask_getTask_roundtrip_witness :
    (∃ r s2, create_task initState { title := "A", description := "a" } =
        Except.ok (r, s2) ∧
      r.status = some TaskStatus.created ∧
      r.title = some "A" ∧
      r.description = some "a" ∧
      r.created_at = r.updated_at ∧
      get_task s2 r.id = Except.ok r) ∧
    create_task initState
        { title := String.mk (List.replicate 201 'y'), description := "a" } =
      Except.error ServiceError.storageError :=
  ⟨(createTask_getTask_roundtrip initState { title := "A", description := "a" }
      (by decide)).1 (by decide),
   (createTask_getTask_roundtrip initState
      { title := String.mk (List.replicate 201 'y'), description := "a" }
      (by decide)).2 (by decide) (by decide)⟩

/-- C10: the merge loop distinguishes only set from unset, not null from
absent — a field explicitly supplied as null is included in the
`exclude_unset` dump and the corresponding attribute is assigned None,
while a field absent from the payload is left unchanged; for the nullable
`status` column the assigned None is also committed by the service. -/
theorem updateTask_null_assigns (r : TaskRecord) (u : TaskUpdate) :
    (u.title = some none → (applyUpdate r u).title = none) ∧
    (u.description = some none → (applyUpdate r u).description = none) ∧
    (u.status = some none → (applyUpdate r u).status = none) ∧
    (u.title = none → (applyUpdate r u).title = r.title) ∧
    (u.description = none → (applyUpdate r u).description = r.description) ∧
    (u.status = none → (applyUpdate r u).status = r.status) ∧
    (∀ s i, s.tasks.Pairwise (fun a b => a.id ≠ b.id) → r ∈ s.tasks →
      r.id = i → r.title ≠ none → r.description ≠ none → r.status ≠ none →
      ∃ s2, update_task s i { status := some none } =
        Except.ok ({ r with status := none, updated_at := s.clock }, s2)) := by
  obtain ⟨f1, f2, f3, _⟩ := applyUpdate_fields r u
  refine ⟨?_, ?_, ?_, ?_, ?_, ?_, ?_⟩
  · intro h; rw [f1, h]; rfl
  · intro h; rw [f2, h]; rfl
  · intro h; rw [f3, h]; rfl
  · intro h; rw [f1, h]; rfl
  · intro h; rw [f2, h]; rfl
  · intro h; rw [f3, h]; rfl
  · intro s i hp hm hi ht hd hst
    have hf := filter_id_eq_single hp hm hi
    have hne : applyUpdate r { status := some none } ≠ r := by
      intro heq
      exact hst (congrArg TaskRecord.status heq).symm
    have hcols : ¬((applyUpdate r { status := some none }).title = none ∨
        (applyUpdate r { status := some none }).description = none) := by
      intro hcase
      rcases hcase with hcase | hcase
      · exact ht hcase
      · exact hd hcase
    refine ⟨{ s with
        tasks := s.tasks.map (fun x =>
          if x.id == i then
            { applyUpdate r { status := some none } with updated_at := s.clock }
          else x)
        clock := s.clock + 1 }, ?_⟩
    rw [update_task_found s i { status := some none } r hf, if_neg hne,
      if_neg hcols]
    rfl

/-- C10 instantiated: an explicit null status is assigned and committed on
a concrete one-row store; an explicitly null title is assigned by the merge
loop; the untouched description survives the merge. -/
theorem updateTask_null_assigns_witness :
    (applyUpdate sampleA { title := some none, status := some none }).title
      = none ∧
    (applyUpdate sampleA { title := some none, status := some none }).status
      = none ∧
    (applyUpdate sampleA
        { title := some none, status := some none }).description
      = sampleA.description ∧
    ∃ s2, update_task sampleState 0 { status := some none } =
      Except.ok ({ sampleA with status := none, updated_at := sampleState.clock }, s2) :=
  ⟨(updateTask_null_assigns sampleA
      { title := some none, status := some none }).1 rfl,
   (updateTask_null_assigns sampleA
      { title := some none, status := some none }).2.2.1 rfl,
   (updateTask_null_assigns sampleA
      { title := some none, status := some none }).2.2.2.2.1 rfl,
   (updateTask_null_assigns sampleA
      { title := some none, status := some none }).2.2.2.2.2.2 sampleState 0
     (by decide) (by simp [sampleState]) rfl (fun h => Option.noConfusion h)
     (fun h => Option.noConfusion h) (fun h => Option.noConfusion h)⟩

/-- `update_task` when the id lookup selects nothing. -/
theorem update_task_empty (s : StoreState) (i : Nat) (u : TaskUpdate)
    (hf : s.tasks.filter (fun x => x.id == i) = []) :
    update_task s i u = Except.error ServiceError.notFound := by
  rw [update_task, hf]

/-- `update_task` when the id lookup selects two or more rows. -/
theorem update_task_multi (s : StoreState) (i : Nat) (u : TaskUpdate)
    (a b : TaskRecord) (rest : List TaskRecord)
    (hf : s.tasks.filter (fun x => x.id == i) = a :: b :: rest) :
    update_task s i u = Except.error ServiceError.storageError := by
  rw [update_task, hf]

/-- Any successful `update_task` either committed no net change (state
advances only its clock) or rewrote, in place, every row carrying the id
with the merged record stamped at the current clock, with the NOT NULL
columns intact. -/
theorem update_task_ok_state (s : StoreState) (i : Nat) (u : TaskUpdate)
    (t2 : TaskRecord) (s2 : StoreState)
    (h : update_task s i u = Except.ok (t2, s2)) :
    (t2 ∈ s.tasks ∧ s2 = { s with clock := s.clock + 1 }) ∨
    (∃ t, t ∈ s.tasks ∧ (t.id == i) = true ∧
      t2 = { applyUpdate t u with updated_at := s.clock } ∧
      (applyUpdate t u).title ≠ none ∧ (applyUpdate t u).description ≠ none ∧
      s2 = { s with
        tasks := s.tasks.map (fun x =>
          if x.id == i then { applyUpdate t u with updated_at := s.clock }
          else x)
        clock := s.clock + 1 }) := by
  cases hf : s.tasks.filter (fun x => x.id == i) with
  | nil =>
    rw [update_task_empty s i u hf] at h
    cases h
  | cons t rest =>
    cases rest with
    | cons b rest2 =>
      rw [update_task_multi s i u t b rest2 hf] at h
      cases h
    | nil =>
      have htf : t ∈ s.tasks.filter (fun x => x.id == i) := by
        rw [hf]
        exact List.mem_singleton.mpr rfl
      have htm : t ∈ s.tasks := (List.mem_filter.mp htf).1
      have hti : (t.id == i) = true := (List.mem_filter.mp htf).2
      rw [update_task_found s i u t hf] at h
      split at h
      · cases h
        exact Or.inl ⟨htm, rfl⟩
      · split at h
        · cases h
        · next hcols =>
          cases h
          obtain ⟨h1, h2⟩ := not_or.mp hcols
          exact Or.inr ⟨t, htm, hti, rfl, h1, h2, rfl⟩

/-- `delete_task` when the id lookup selects nothing. -/
theorem delete_task_empty (s : StoreState) (i : Nat)
    (hf : s.tasks.filter (fun x => x.id == i) = []) :
    delete_task s i = Except.error ServiceError.notFound := by
  rw [delete_task, hf]

/-- `delete_task` when the id lookup selects two or more rows. -/
theorem delete_task_multi (s : StoreState) (i : Nat)
    (a b : TaskRecord) (rest : List TaskRecord)
    (hf : s.tasks.filter (fun x => x.id == i) = a :: b :: rest) :
    delete_task s i = Except.error ServiceError.storageError := by
  rw [delete_task, hf]

/-- Any successful `delete_task` leaves exactly the rows not carrying the
id, in their original order. -/
theorem delete_task_ok_state (s : StoreState) (i : Nat) (s2 : StoreState)
    (h : delete_task s i = Except.ok s2) :
    s2 = { s with
      tasks := s.tasks.filter (fun x => ¬ x.id == i)
      clock := s.clock + 1 } := by
  cases hf : s.tasks.filter (fun x => x.id == i) with
  | nil =>
    rw [delete_task_empty s i hf] at h
    cases h
  | cons t rest =>
    cases rest with
    | cons b rest2 =>
      rw [delete_task_multi s i t b rest2 hf] at h
      cases h
    | nil =>
      rw [delete_task, hf] at h
      cases h
      rfl

/-- Structural well-formedness of a store state: ids are pairwise distinct
and below the fresh-id source, timestamps are ordered and in the clock's
past, and the NOT NULL columns are populated. -/
structure InvBase (s : StoreState) : Prop where
  distinct : s.tasks.Pairwise (fun a b => a.id ≠ b.id)
  fresh : ∀ r ∈ s.tasks, r.id < s.nextId
  times : ∀ r ∈ s.tasks, r.created_at ≤ r.updated_at ∧ r.updated_at < s.clock
  cols : ∀ r ∈ s.tasks, r.title ≠ none ∧ r.description ≠ none

/-- Payloads that respect the documented input contract: creations carry a
non-empty title, updates never set the title to an empty string and never
set the status to an explicit null. -/
def goodOp : Op → Prop
  | Op.create t => t.title ≠ ""
  | Op.update _ u => u.title ≠ some (some "") ∧ u.status ≠ some none
  | Op.delete _ => True

instance (op : Op) : Decidable (goodOp op) := by
  cases op with
  | create t => exact inferInstanceAs (Decidable (t.title ≠ ""))
  | update i u =>
    exact inferInstanceAs
      (Decidable (u.title ≠ some (some "") ∧ u.status ≠ some none))
  | delete i => exact inferInstanceAs (Decidable True)

/-- The content invariant claimed by the data model: titles are non-empty
and the status column is non-null. -/
def InvGood (s : StoreState) : Prop :=
  ∀ r ∈ s.tasks, r.title ≠ some "" ∧ r.status ≠ none

/-- Every service call preserves structural well-formedness of the store. -/
theorem step_invBase (s : StoreState) (op : Op) (hb : InvBase s) :
    InvBase (step s op) := by
  obtain ⟨hdis, hfr, htm, hco⟩ := hb
  cases op with
  | create t =>
    cases hc : create_task s t with
    | error e =>
      simp only [step, hc]
      exact ⟨hdis, hfr, htm, hco⟩
    | ok p =>
      obtain ⟨r2, s2⟩ := p
      simp only [step, hc]
      obtain ⟨stored, hv, hr2, hs2⟩ := create_task_ok_state s t r2 s2 hc
      subst hs2
      subst hr2
      refine ⟨?_, ?_, ?_, ?_⟩
      · rw [List.pairwise_append]
        refine ⟨hdis, List.pairwise_singleton _ _, ?_⟩
        intro a ha b hbm
        rw [List.mem_singleton.mp hbm]
        exact Nat.ne_of_lt (hfr a ha)
      · intro r hr
        rcases List.mem_append.mp hr with hr | hr
        · exact Nat.lt_succ_of_lt (hfr r hr)
        · rw [List.mem_singleton.mp hr]
          exact Nat.lt_succ_self _
      · intro r hr
        rcases List.mem_append.mp hr with hr | hr
        · exact ⟨(htm r hr).1, Nat.lt_succ_of_lt (htm r hr).2⟩
        · rw [List.mem_singleton.mp hr]
          exact ⟨Nat.le_refl _, Nat.lt_succ_self _⟩
      · intro r hr
        rcases List.mem_append.mp hr with hr | hr
        · exact hco r hr
        · rw [List.mem_singleton.mp hr]
          exact ⟨fun h => Option.noConfusion h, fun h => Option.noConfusion h⟩
  | update i u =>
    cases hu : update_task s i u with
    | error e =>
      simp only [step, hu]
      exact ⟨hdis, hfr, htm, hco⟩
    | ok p =>
      obtain ⟨t2, s2⟩ := p
      simp only [step, hu]
      rcases update_task_ok_state s i u t2 s2 hu with
        ⟨_, hs2⟩ | ⟨t, htmem, hti, ht2, hTitle, hDesc, hs2⟩
      · subst hs2
        exact ⟨hdis, hfr,
          fun r hr => ⟨(htm r hr).1, Nat.lt_succ_of_lt (htm r hr).2⟩, hco⟩
      · subst hs2
        obtain ⟨g1, g2, g3, g4, g5, g6, g7⟩ := applyUpdate_fields t u
        have hid : ∀ x : TaskRecord,
            ((if x.id == i
              then { applyUpdate t u with updated_at := s.clock }
              else x)).id = x.id := by
          intro x
          by_cases hx : (x.id == i) = true
          · rw [if_pos hx]
            show (applyUpdate t u).id = x.id
            rw [g4, beq_iff_eq.mp hti, beq_iff_eq.mp hx]
          · rw [if_neg hx]
        refine ⟨?_, ?_, ?_, ?_⟩
        · rw [List.pairwise_map]
          exact hdis.imp (fun hab => by
            rw [hid, hid]
            exact hab)
        · intro r hr
          obtain ⟨x, hx, rfl⟩ := List.mem_map.mp hr
          show _ < s.nextId
          rw [hid x]
          exact hfr x hx
        · intro r hr
          obtain ⟨x, hx, rfl⟩ := List.mem_map.mp hr
          by_cases hxi : (x.id == i) = true
          · rw [if_pos hxi]
            constructor
            · show (applyUpdate t u).created_at ≤ s.clock
              rw [g5]
              exact Nat.le_of_lt
                (Nat.lt_of_le_of_lt (htm t htmem).1 (htm t htmem).2)
            · exact Nat.lt_succ_self _
          · rw [if_neg hxi]
            exact ⟨(htm x hx).1, Nat.lt_succ_of_lt (htm x hx).2⟩
        · intro r hr
          obtain ⟨x, hx, rfl⟩ := List.mem_map.mp hr
          by_cases hxi : (x.id == i) = true
          · rw [if_pos hxi]
            exact ⟨hTitle, hDesc⟩
          · rw [if_neg hxi]
            exact hco x hx
  | delete i =>
    cases hu : delete_task s i with
    | error e =>
      simp only [step, hu]
      exact ⟨hdis, hfr, htm, hco⟩
    | ok s2 =>
      simp only [step, hu]
      rw [delete_task_ok_state s i s2 hu]
      refine ⟨hdis.filter _, ?_, ?_, ?_⟩
      · intro r hr
        exact hfr r (List.mem_of_mem_filter hr)
      · intro r hr
        have h := htm r (List.mem_of_mem_filter hr)
        exact ⟨h.1, Nat.lt_succ_of_lt h.2⟩
      · intro r hr
        exact hco r (List.mem_of_mem_filter hr)

/-- A service call with a contract-respecting payload preserves the content
invariant (non-empty titles, non-null status). -/
theorem step_invGood (s : StoreState) (op : Op) (hop : goodOp op)
    (hg : InvGood s) : InvGood (step s op) := by
  cases op with
  | create t =>
    cases hc : create_task s t with
    | error e =>
      simp only [step, hc]
      exact hg
    | ok p =>
      obtain ⟨r2, s2⟩ := p
      simp only [step, hc]
      obtain ⟨stored, hv, hr2, hs2⟩ := create_task_ok_state s t r2 s2 hc
      subst hs2
      subst hr2
      intro r hr
      rcases List.mem_append.mp hr with hr | hr
      · exact hg r hr
      · rw [List.mem_singleton.mp hr]
        refine ⟨?_, fun h => Option.noConfusion h⟩
        intro h
        exact varchar200_ne_empty t.title stored hop hv (Option.some.inj h)
  | update i u =>
    cases hu : update_task s i u with
    | error e =>
      simp only [step, hu]
      exact hg
    | ok p =>
      obtain ⟨t2, s2⟩ := p
      simp only [step, hu]
      rcases update_task_ok_state s i u t2 s2 hu with
        ⟨_, hs2⟩ | ⟨t, htmem, hti, ht2, hTitle, hDesc, hs2⟩
      · subst hs2
        exact hg
      · subst hs2
        obtain ⟨g1, g2, g3, g4, g5, g6, g7⟩ := applyUpdate_fields t u
        obtain ⟨hopt, hops⟩ := hop
        intro r hr
        obtain ⟨x, hx, rfl⟩ := List.mem_map.mp hr
        by_cases hxi : (x.id == i) = true
        · rw [if_pos hxi]
          constructor
          · show (applyUpdate t u).title ≠ some ""
            rw [g1]
            cases hut : u.title with
            | none => exact (hg t htmem).1
            | some v =>
              intro hv
              rw [Option.getD_some] at hv
              exact hopt (hut.trans (congrArg some hv))
          · show (applyUpdate t u).status ≠ none
            rw [g3]
            cases hus : u.status with
            | none => exact (hg t htmem).2
            | some v =>
              intro hv
              rw [Option.getD_some] at hv
              exact hops (hus.trans (congrArg some hv))
        · rw [if_neg hxi]
          exact hg x hx
  | delete i =>
    cases hu : delete_task s i with
    | error e =>
      simp only [step, hu]
      exact hg
    | ok s2 =>
      simp only [step, hu]
      rw [delete_task_ok_state s i s2 hu]
      intro r hr
      exact hg r (List.mem_of_mem_filter hr)

/-- Structural well-formedness holds along any fold of service calls. -/
theorem foldl_invBase (ops : List Op) :
    ∀ s, InvBase s → InvBase (List.foldl step s ops) := by
  induction ops with
  | nil => exact fun s hs => hs
  | cons op rest ih => exact fun s hs => ih (step s op) (step_invBase s op hs)

/-- Structural well-formedness of every reachable store state. -/
theorem run_invBase (ops : List Op) : InvBase (run ops) :=
  foldl_invBase ops initState
    ⟨List.Pairwise.nil,
     fun r hr => absurd hr (List.not_mem_nil r),
     fun r hr => absurd hr (List.not_mem_nil r),
     fun r hr => absurd hr (List.not_mem_nil r)⟩

/-- The content invariant holds along any fold of contract-respecting
service calls. -/
theorem foldl_invGood (ops : List Op) :
    ∀ s, (∀ op ∈ ops, goodOp op) → InvGood s →
      InvGood (List.foldl step s ops) := by
  induction ops with
  | nil => exact fun s _ hg => hg
  | cons op rest ih =>
    intro s hall hg
    exact ih (step s op)
      (fun o ho => hall o (List.mem_cons_of_mem op ho))
      (step_invGood s op (hall op (List.mem_cons_self op rest)) hg)

/-- The content invariant of every store state reachable by
contract-respecting calls. -/
theorem run_invGood (ops : List Op) (h : ∀ op ∈ ops, goodOp op) :
    InvGood (run ops) :=
  foldl_invGood ops initState h (fun r hr => absurd hr (List.not_mem_nil r))

/-- C8 (counterexample): the claimed invariant fails on the code — creating
a task with an empty title and then updating it with an explicit null
status reaches a store whose single record has `title = ""` (the service
performs no title validation) and `status = NULL` (the nullable status
column accepts the explicitly transmitted null), violating both the
"title is non-empty text" and the "status is one of the three defined
values" clauses. -/
theorem storeInvariant_cex :
    (run [Op.create { title := "", description := "d" },
          Op.update 0 { status := some none }]).tasks =
      [{ id := 0, title := some "", description := some "d", status := none,
         created_at := 0, updated_at := 1, deleted_at := none }] := rfl

/-- C8 (amended): every reachable store state has pairwise-distinct ids all
below the fresh-id source (ids are never reused), `updated_at >= created_at`
for every record, and populated NOT NULL columns; and provided every create
supplies a non-empty title and no update sets the title to the empty string
or the status to an explicit null, every stored record has a non-empty
title and a status among the three defined values. -/
theorem storeInvariant (ops : List Op) :
    ((run ops).tasks.Pairwise (fun a b => a.id ≠ b.id) ∧
     (∀ r ∈ (run ops).tasks, r.id < (run ops).nextId) ∧
     (∀ r ∈ (run ops).tasks, r.created_at ≤ r.updated_at) ∧
     (∀ r ∈ (run ops).tasks, r.title ≠ none ∧ r.description ≠ none)) ∧
    ((∀ op ∈ ops, goodOp op) →
      ∀ r ∈ (run ops).tasks,
        (∃ v, r.title = some v ∧ v ≠ "") ∧
        (r.status = some TaskStatus.created ∨
         r.status = some TaskStatus.in_progress ∨
         r.status = some TaskStatus.completed)) := by
  obtain ⟨hdis, hfr, htm, hco⟩ := run_invBase ops
  refine ⟨⟨hdis, hfr, fun r hr => (htm r hr).1, hco⟩, ?_⟩
  intro hall r hr
  obtain ⟨hne, hst⟩ := run_invGood ops hall r hr
  constructor
  · cases ht : r.title with
    | none => exact absurd ht (hco r hr).1
    | some v =>
      refine ⟨v, rfl, fun hv => hne ?_⟩
      rw [ht, hv]
  · cases hs : r.status with
    | none => exact absurd hs hst
    | some c =>
      cases c with
      | created => exact Or.inl rfl
      | in_progress => exact Or.inr (Or.inl rfl)
      | completed => exact Or.inr (Or.inr rfl)

/-- C8 (amended) instantiated on the concrete call sequence
create("A"), update(status := completed), delete(absent id): the reached
store consists of one record with non-empty title and a defined status. -/
theorem storeInvariant_witness :
    (∃ v, ({ id := 0, title := some "A", description := some "a",
             status := some TaskStatus.completed, created_at := 0,
             updated_at := 1, deleted_at := none } : TaskRecord).title
        = some v ∧ v ≠ "") ∧
    (({ id := 0, title := some "A", description := some "a",
        status := some TaskStatus.completed, created_at := 0,
        updated_at := 1, deleted_at := none } : TaskRecord).status
        = some TaskStatus.created ∨
     ({ id := 0, title := some "A", description := some "a",
        status := some TaskStatus.completed, created_at := 0,
        updated_at := 1, deleted_at := none } : TaskRecord).status
        = some TaskStatus.in_progress ∨
     ({ id := 0, title := some "A", description := some "a",
        status := some TaskStatus.completed, created_at := 0,
        updated_at := 1, deleted_at := none } : TaskRecord).status
        = some TaskStatus.completed) :=
  (storeInvariant
      [Op.create { title := "A", description := "a" },
       Op.update 0 { status := some (some TaskStatus.completed) },
       Op.delete 7]).2
    (by decide)
    { id := 0, title := some "A", description := some "a",
      status := some TaskStatus.completed, created_at := 0,
      updated_at := 1, deleted_at := none }
    (by decide)
